import Mathlib

/-
Verification of the norse repository's packaging and CI artifacts.

The repository excerpt consists of three GitHub Actions workflow files
(a PyPI release workflow, a documentation build workflow, a code-quality
workflow), a conda build recipe, and two documentation notebooks.  The
workflows and the recipe are embedded below as concrete Lean data; the
neuron-model behaviour that the notebooks describe in prose is modelled
from the specification, since the library's numerical code is not part
of the excerpt.
-/

namespace Norse

/-- A single step of a GitHub Actions job.  `name`, `uses` and `run` embed
the YAML keys of the same names; `cond` embeds the step-level `if:` key;
`env` and `withArgs` embed the `env:` and `with:` mappings as association
lists in source order. -/
structure Step where
  name : Option String := none
  uses : Option String := none
  run : Option String := none
  cond : Option String := none
  env : List (String × String) := []
  withArgs : List (String × String) := []
deriving DecidableEq

/-- A workflow trigger, as written under the `on:` key. -/
inductive Trigger where
  | release (types : List String)
  | push (branchesIgnore : List String)
deriving DecidableEq

/-- A GitHub Actions job: its YAML key (`id`), display `name`, `runs-on`
value, `strategy.matrix` as an association list of variables to value
lists, and its steps in order. -/
structure Job where
  id : String
  name : Option String := none
  runsOn : String
  matrix : List (String × List String) := []
  steps : List Step
deriving DecidableEq

/-- A GitHub Actions workflow file. -/
structure Workflow where
  name : String
  onEvents : List Trigger
  jobs : List Job
deriving DecidableEq

/-! ### The `Publish To Pypi` workflow (src/unnamed/part_000) -/

/-- The `Publish wheels to PyPI` step.  It appears verbatim as the final
step of both jobs of the release workflow: twine credentials are the token
username `__token__` and the repository secret `PYPI_PUBLISH_KEY`. -/
def twinePublishStep : Step :=
  { name := some "Publish wheels to PyPI"
    env := [("TWINE_USERNAME", "__token__"),
            ("TWINE_PASSWORD", "$\x7b\x7b secrets.PYPI_PUBLISH_KEY \x7d\x7d")]
    run := some "twine upload dist/*" }

/-- Job `linux-build` of the release workflow: a container-based manylinux
wheel build followed directly by the PyPI upload. -/
def linuxBuild : Job :=
  { id := "linux-build"
    name := some "Build and package: manylinux"
    runsOn := "ubuntu-latest"
    steps :=
      [ { uses := some "actions/checkout@v2" },
        { name := some "Build manylinux Python wheels"
          uses := some "RalfG/python-wheels-manylinux-build@v0.3.4-manylinux2014_x86_64"
          withArgs := [("python-versions", "cp37-cp37m cp38-cp38 cp39-cp39"),
                       ("build-requirements", "torch")] },
        twinePublishStep ] }

/-- Job `mac-windows-build` of the release workflow: a native build over
the {macos-latest, windows-latest} x {3.7, 3.8, 3.9} matrix that runs the
unit tests, builds a wheel and uploads it. -/
def macWindowsBuild : Job :=
  { id := "mac-windows-build"
    name := some "Build and package: $\x7b\x7b matrix.os \x7d\x7d v$\x7b\x7b matrix.python-version \x7d\x7d"
    runsOn := "$\x7b\x7b matrix.os \x7d\x7d"
    matrix := [("os", ["macos-latest", "windows-latest"]),
               ("python-version", ["3.7", "3.8", "3.9"])]
    steps :=
      [ { uses := some "actions/checkout@v2" },
        { name := some "Set up Python 3.x"
          uses := some "actions/setup-python@v2"
          withArgs := [("python-version", "$\x7b\x7b matrix.python-version \x7d\x7d")] },
        { name := some "Install build dependencies"
          run := some "pip install setuptools wheel pytest-xdist\npip install -e ." },
        { name := some "Run unit tests"
          run := some "pytest -n auto norse" },
        { name := some "Build wheel"
          run := some "python setup.py bdist_wheel sdist" },
        twinePublishStep ] }

/-- The `Publish To Pypi` workflow: triggered when a release is published,
with exactly the two wheel-building jobs above. -/
def publishToPypi : Workflow :=
  { name := "Publish To Pypi"
    onEvents := [Trigger.release ["published"]]
    jobs := [linuxBuild, macWindowsBuild] }

/-! ### The `Documentation Build` workflow (src/unnamed/part_001) -/

/-- Job `build-docs` of the documentation workflow: system and python
dependency installation followed, as the last step, by the jupyter-book
build of the docs directory. -/
def buildDocs : Job :=
  { id := "build-docs"
    runsOn := "ubuntu-latest"
    steps :=
      [ { uses := some "actions/checkout@v1" },
        { name := some "Set up Python"
          uses := some "actions/setup-python@v2"
          withArgs := [("python-version", "3.x")] },
        { name := some "Install system dependencies"
          run := some "sudo apt update && sudo apt install g++ -y" },
        { name := some "Fix sphinx-jupyterbook-latex bug"
          run := some "pip install git+https://github.com/jegp/sphinx-jupyterbook-latex" },
        { name := some "Install python dependencies"
          run := some "python -m pip install --upgrade pip\npip install -r docs/requirements.txt\npip install -e ." },
        { name := some "Compile docs"
          run := some "jupyter-book build docs" } ] }

/-- The `Documentation Build` workflow: triggered by pushes to every branch
except `master`. -/
def documentationBuild : Workflow :=
  { name := "Documentation Build"
    onEvents := [Trigger.push ["master"]]
    jobs := [buildDocs] }

/-! ### The `Python package` workflow (first document of src/unnamed/part_002) -/

/-- Job `build-python-ubuntu` of the code-quality workflow: for each of
Python 3.7, 3.8 and 3.9 it runs the unit tests with coverage, pytype and
black, and finally uploads the coverage report to codecov. -/
def buildPythonUbuntu : Job :=
  { id := "build-python-ubuntu"
    name := some "Code quality checks v$\x7b\x7b matrix.python-version \x7d\x7d"
    runsOn := "ubuntu-latest"
    matrix := [("python-version", ["3.7", "3.8", "3.9"])]
    steps :=
      [ { uses := some "actions/checkout@master" },
        { name := some "Cache"
          cond := some "$\x7b\x7b !env.ACT \x7d\x7d"
          uses := some "actions/cache@v2"
          env := [("CACHE_NUMBER", "0")]
          withArgs := [("path", "~/cpp_pkgs_dir"),
                       ("key", "ubuntu-python-latest-$\x7b\x7b env.CACHE_NUMBER \x7d\x7d")] },
        { name := some "Install Python"
          uses := some "actions/setup-python@v2"
          withArgs := [("python-version", "$\x7b\x7b matrix.python-version \x7d\x7d")] },
        { name := some "Install GCC"
          run := some "sudo apt update\nsudo apt install g++ -y" },
        { name := some "Install test dependencies"
          run := some "pip install pytest-cov pytest-xdist pytype black" },
        { name := some "Install optional libraries"
          run := some "pip install matplotlib tensorboard pytorch-lightning" },
        { name := some "Install package"
          run := some "pip install -e ." },
        { name := some "Run unit tests"
          run := some "pytest norse -n auto --cov=./ --cov-report=xml" },
        { name := some "Type check"
          run := some "pytype norse -j 4" },
        { name := some "Lint"
          run := some "black --check norse" },
        { name := some "Upload coverage"
          uses := some "codecov/codecov-action@v1"
          withArgs := [("token", "$\x7b\x7b secrets.CODECOV_TOKEN \x7d\x7d"),
                       ("flags", "unittests"),
                       ("env_vars", "OS,PYTHON"),
                       ("name", "codecov-umbrella"),
                       ("fail_ci_if_error", "true")] } ] }

/-- Job `build-python-mac-windows` of the code-quality workflow: a build
and test over the three operating systems and Python 3.7-3.9. -/
def buildPythonMacWindows : Job :=
  { id := "build-python-mac-windows"
    name := some "Build and package $\x7b\x7b matrix.os \x7d\x7d v$\x7b\x7b matrix.python-version \x7d\x7d"
    runsOn := "$\x7b\x7b matrix.os \x7d\x7d"
    matrix := [("python-version", ["3.7", "3.8", "3.9"]),
               ("os", ["ubuntu-latest", "macos-latest", "windows-latest"])]
    steps :=
      [ { uses := some "actions/checkout@v2" },
        { name := some "Set up Python 3.x"
          uses := some "actions/setup-python@v2"
          withArgs := [("python-version", "$\x7b\x7b matrix.python-version \x7d\x7d")] },
        { name := some "Install build dependencies"
          run := some "pip install setuptools wheel pytest-xdist tensorboard\npip install -e ." },
        { name := some "Run unit tests"
          run := some "pytest -n auto norse" },
        { name := some "Build wheel"
          run := some "python setup.py bdist_wheel sdist" } ] }

/-- The `Python package` workflow: triggered by pushes to every branch
except `master`. -/
def pythonPackage : Workflow :=
  { name := "Python package"
    onEvents := [Trigger.push ["master"]]
    jobs := [buildPythonUbuntu, buildPythonMacWindows] }

/-! ### The conda build recipe (second document of src/unnamed/part_002) -/

/-- The `test:` section of a recipe output: requirements, the modules
imported as a smoke test, files copied into the test environment, and
the test commands. -/
structure RecipeTest where
  requires : List String
  smokeImports : List String
  sourceFiles : List String
  commands : List String
deriving DecidableEq

/-- The `requirements:` section of a recipe output: the install script
and the `build`, `host` and `run` dependency sets. -/
structure RecipeRequirements where
  script : List String
  build : List String
  host : List String
  runDeps : List String
deriving DecidableEq

/-- One entry of the recipe's `outputs:` list. -/
structure RecipeOutput where
  name : String
  files : List String
  test : RecipeTest
  requirements : RecipeRequirements
deriving DecidableEq

/-- The whole conda recipe: package name, version and outputs. -/
structure Recipe where
  packageName : String
  version : String
  outputs : List RecipeOutput
deriving DecidableEq

/-- The single `norse` output of the recipe.  Jinja templates such as the
cxx compiler entry are kept as their literal template text. -/
def norseOutput : RecipeOutput :=
  { name := "norse"
    files := ["norse/", "CMakeLists.txt", "LICENSE", "logo.png",
              "norse_op.so", "pyproject.toml", "README.md",
              "requirements.txt", "setup.py"]
    test :=
      { requires := ["pytest", "pytest-xdist"]
        smokeImports := ["norse", "torch"]
        sourceFiles := ["**/*.py", "*.so"]
        commands := ["pytest -n 4 -vv"] }
    requirements :=
      { script := ["python -m pip install --no-deps --ignore-installed -e ."]
        build := ["cmake", "gxx_linux-64",
                  "\x7b\x7b compiler(\x27cxx\x27) \x7d\x7d", "pytorch>=1.9.0"]
        host := ["numpy \x7b\x7b numpy \x7d\x7d", "setuptools", "typing_extensions",
                 "dataclasses", "ninja", "libuv", "pkg-config", "pip"]
        runDeps := ["python", "pip", "pytorch>=1.9.0", "torchvision",
                    "dataclasses", "ninja", "typing_extensions"] } }

/-- The conda recipe, with the Jinja `version` variable set to
`0.0.7RC2` as in its header. -/
def norseRecipe : Recipe :=
  { packageName := "norse"
    version := "0.0.7RC2"
    outputs := [norseOutput] }

/-! ### Executed notebook outputs (src/docs/pages/spiking.ipynb) -/

/-- The `text/plain` output of the first code cell of
docs/pages/spiking.ipynb, which evaluates `norse.__version__`; the value
carries the quotes of the Python repr. -/
def spikingVersionCellOutput : String := "\x270.0.7RC3\x27"

/-- The version string reported by `norse.__version__` in the executed
notebook: the repr output with its surrounding quotes stripped. -/
def reportedNorseVersion : String :=
  (spikingVersionCellOutput.drop 1).dropRight 1

/-! ### The neuron-model interface described by the documentation

The numerical code of the library (`norse.torch.LIFCell` and friends) is
not part of this excerpt; only the documentation notebooks describe it.
The definitions below are therefore modelled from the spec. -/

/-- Modelled from the spec: the neuron state of the leaky integrate-and-fire
cell, whose implementation (`norse.torch.LIFCell`) is missing from the
excerpt.  Per docs/pages/working.ipynb the state bundles a membrane
voltage `v` and a synaptic current `i`; a single neuron's scalar state is
used, with rationals standing in for the tensor entries. -/
structure LIFState where
  v : ℚ
  i : ℚ
deriving DecidableEq

/-- Modelled from the spec: the neuron parameters relevant here, the
membrane-voltage threshold above which the neuron spikes. -/
structure LIFParameters where
  threshold : ℚ
deriving DecidableEq

/-- Modelled from the spec: spike emission is a discrete binary event,
`1` (spike) when the membrane voltage is above the threshold and `0`
(no event) otherwise. -/
def spikeFn (threshold v : ℚ) : ℚ :=
  if threshold < v then 1 else 0

/-- Modelled from the spec: the incoming current is integrated into the
synaptic current `i`, which in turn is integrated into the membrane
potential `v`. -/
def lifIntegrate (input : ℚ) (s : LIFState) : LIFState :=
  { v := s.v + (s.i + input), i := s.i + input }

/-- Modelled from the spec: spike emission followed by the immediate reset
of the membrane voltage that the documentation describes at the peak of
the action potential. -/
def lifFire (p : LIFParameters) (s : LIFState) : ℚ × LIFState :=
  (spikeFn p.threshold s.v,
   if p.threshold < s.v then { s with v := 0 } else s)

/-- Modelled from the spec: a single step of the LIF cell on an input
without a time dimension: integrate the input, then fire. -/
def lifStep (p : LIFParameters) (input : ℚ) (s : LIFState) : ℚ × LIFState :=
  lifFire p (lifIntegrate input s)

/-- Modelled from the spec: the state a cell starts from when invoked
without any state. -/
def lifInitialState : LIFState := { v := 0, i := 0 }

/-- Modelled from the spec: one invocation of the cell as in the notebook,
with an optional state argument; the first invocation passes `none`. -/
def lifCell (p : LIFParameters) (input : ℚ) (s : Option LIFState) :
    ℚ × LIFState :=
  lifStep p input (s.getD lifInitialState)

/-- Modelled from the spec: the notebook's usage pattern over a sequence of
inputs.  Each list entry records one invocation: the state argument it was
given, and the spike output and state it returned; the state returned by
one call is passed (wrapped in `some`) to the next call. -/
def lifCalls (p : LIFParameters) : List ℚ → Option LIFState →
    List (Option LIFState × ℚ × LIFState)
  | [], _ => []
  | x :: xs, s =>
    let r := lifCell p x s
    (s, r) :: lifCalls p xs (some r.2)

/-- Modelled from the spec: the time-unrolled variant.  Its input carries
time in the first dimension (the outer list index) and it iterates
internally over that dimension, accumulating one output per timestep. -/
def lifUnrolled (p : LIFParameters) (inputs : List ℚ) (s : LIFState) :
    List ℚ × LIFState :=
  inputs.foldl
    (fun acc x =>
      let r := lifStep p x acc.2
      (acc.1 ++ [r.1], r.2))
    ([], s)

/-- Iterating the single-step cell over the time dimension by hand, for
comparison with the time-unrolled variant. -/
def lifCellIter (p : LIFParameters) : List ℚ → LIFState → List ℚ × LIFState
  | [], s => ([], s)
  | x :: xs, s =>
    let r := lifStep p x s
    let rest := lifCellIter p xs r.2
    (r.1 :: rest.1, rest.2)

/-! ### Lemmas about the modelled neuron interface -/

/-- The state argument recorded for the first call of a run of
invocations is exactly the state the run was started with. -/
lemma lifCalls_arg_head (p : LIFParameters) (xs : List ℚ)
    (s : Option LIFState) (c : Option LIFState × ℚ × LIFState)
    (h : (lifCalls p xs s).get? 0 = some c) : c.1 = s := by
  cases xs with
  | nil => simp [lifCalls] at h
  | cons x xs =>
    have hd : (lifCalls p (x :: xs) s).get? 0 = some (s, lifCell p x s) := rfl
    rw [hd] at h
    injection h with h
    rw [← h]

/-- Consecutive calls are threaded: the state argument of call `k + 1`
is the state returned by call `k`. -/
lemma lifCalls_threaded (p : LIFParameters) :
    ∀ (xs : List ℚ) (s : Option LIFState) (k : ℕ)
      (c c1 : Option LIFState × ℚ × LIFState),
      (lifCalls p xs s).get? k = some c →
      (lifCalls p xs s).get? (k + 1) = some c1 → c1.1 = some c.2.2 := by
  intro xs
  induction xs with
  | nil =>
    intro s k c c1 h _
    simp [lifCalls] at h
  | cons x xs ih =>
    intro s k c c1 h h1
    cases k with
    | zero =>
      have hd : (lifCalls p (x :: xs) s).get? 0 = some (s, lifCell p x s) := rfl
      rw [hd] at h
      injection h with h
      have ht : (lifCalls p (x :: xs) s).get? 1 =
          (lifCalls p xs (some (lifCell p x s).2)).get? 0 := rfl
      rw [ht] at h1
      have := lifCalls_arg_head p xs (some (lifCell p x s).2) c1 h1
      rw [this, ← h]
    | succ k =>
      have ht : ∀ m, (lifCalls p (x :: xs) s).get? (m + 1) =
          (lifCalls p xs (some (lifCell p x s).2)).get? m := fun _ => rfl
      rw [ht] at h
      rw [ht] at h1
      exact ih (some (lifCell p x s).2) k c c1 h h1

/-- The output list of `lifCellIter` has one entry per timestep. -/
lemma lifCellIter_length (p : LIFParameters) :
    ∀ (xs : List ℚ) (s : LIFState),
      (lifCellIter p xs s).1.length = xs.length := by
  intro xs
  induction xs with
  | nil => intro s; simp [lifCellIter]
  | cons x xs ih => intro s; simp [lifCellIter, ih]

/-- The fold inside `lifUnrolled` is iteration of the single-step cell,
with an explicit output accumulator. -/
lemma lifUnrolled_foldl (p : LIFParameters) :
    ∀ (xs : List ℚ) (s : LIFState) (acc : List ℚ),
      xs.foldl
        (fun a x =>
          let r := lifStep p x a.2
          (a.1 ++ [r.1], r.2))
        (acc, s) =
      (acc ++ (lifCellIter p xs s).1, (lifCellIter p xs s).2) := by
  intro xs
  induction xs with
  | nil => intro s acc; simp [lifCellIter]
  | cons x xs ih =>
    intro s acc
    simp only [List.foldl, lifCellIter]
    rw [ih]
    simp

/-! ### The claims about the documented neuron interface -/

/-- C5: the neuron state exposed at the public interface bundles exactly a
membrane voltage `v` and a synaptic current `i` (a state is determined by
those two values), and over a sequence of invocations the first call is
made without any state while the state argument of each later call is the
state returned by the call before it. -/
theorem c5_state_bundle_and_threading (p : LIFParameters) (inputs : List ℚ) :
    (∀ s t : LIFState, s.v = t.v → s.i = t.i → s = t) ∧
    (∀ c, (lifCalls p inputs none).get? 0 = some c → c.1 = none) ∧
    (∀ k c c1, (lifCalls p inputs none).get? k = some c →
      (lifCalls p inputs none).get? (k + 1) = some c1 → c1.1 = some c.2.2) := by
  refine ⟨?_, ?_, ?_⟩
  · intro s t hv hi
    cases s
    cases t
    simp_all
  · intro c h
    exact lifCalls_arg_head p inputs none c h
  · intro k c c1 h h1
    exact lifCalls_threaded p inputs none k c c1 h h1

/-- Witness for C5 at threshold 1 and the input sequence `[1, 0]`: the
first call receives no state and returns state `⟨1, 1⟩`, which is the
state argument of the second call. -/
theorem c5_state_bundle_and_threading_witness :
    (lifCalls ⟨1⟩ [1, 0] none).get? 0 = some (none, (0, ⟨1, 1⟩)) ∧
    (lifCalls ⟨1⟩ [1, 0] none).get? 1 = some (some ⟨1, 1⟩, (1, ⟨0, 1⟩)) ∧
    (some (⟨1, 1⟩ : LIFState), ((1 : ℚ), (⟨0, 1⟩ : LIFState))).1 =
      some ((none (α := LIFState), ((0 : ℚ), (⟨1, 1⟩ : LIFState))).2.2) :=
  ⟨by norm_num [lifCalls, lifCell, lifStep, lifFire, lifIntegrate, spikeFn,
      lifInitialState],
    by norm_num [lifCalls, lifCell, lifStep, lifFire, lifIntegrate, spikeFn,
      lifInitialState],
    (c5_state_bundle_and_threading ⟨1⟩ [1, 0]).2.2 0
      (none, (0, ⟨1, 1⟩)) (some ⟨1, 1⟩, (1, ⟨0, 1⟩))
      (by norm_num [lifCalls, lifCell, lifStep, lifFire, lifIntegrate, spikeFn,
        lifInitialState])
      (by norm_num [lifCalls, lifCell, lifStep, lifFire, lifIntegrate, spikeFn,
        lifInitialState])⟩

/-- C6: the interface distinguishes the single-step cell, whose input has
no time dimension, from the time-unrolled variant, whose input has time in
the first dimension (the outer list): the unrolled variant is exactly the
iteration of the single-step cell over that dimension, producing one
output per timestep. -/
theorem c6_cell_vs_unrolled (p : LIFParameters) (inputs : List ℚ)
    (s : LIFState) :
    lifUnrolled p inputs s = lifCellIter p inputs s ∧
    (lifUnrolled p inputs s).1.length = inputs.length := by
  have h := lifUnrolled_foldl p inputs s []
  constructor
  · unfold lifUnrolled
    rw [h]
    simp
  · unfold lifUnrolled
    rw [h]
    simp [lifCellIter_length]

/-- C7: the output emitted by a neuron step is binary, `0` (no event) or
`1` (spike), and it is `1` exactly when the membrane voltage after
integrating the input is above the threshold. -/
theorem c7_spike_binary_threshold (p : LIFParameters) (input : ℚ)
    (s : LIFState) :
    ((lifStep p input s).1 = 0 ∨ (lifStep p input s).1 = 1) ∧
    ((lifStep p input s).1 = 1 ↔ p.threshold < (lifIntegrate input s).v) := by
  unfold lifStep lifFire spikeFn
  by_cases h : p.threshold < (lifIntegrate input s).v
  · simp [h]
  · simp [h]

/-! ### The claims about the CI workflows and the recipe -/

/-- C1: the release-published trigger starts exactly two wheel-building
jobs: the manylinux container job building CPython 3.7/3.8/3.9 wheels and
the macOS/Windows job over the {macos-latest, windows-latest} x
{3.7, 3.8, 3.9} matrix; both jobs end with the twine upload step using the
username `__token__` and the `PYPI_PUBLISH_KEY` repository secret. -/
theorem c1_release_publish_wheel_jobs :
    publishToPypi.onEvents = [Trigger.release ["published"]] ∧
    publishToPypi.jobs.length = 2 ∧
    publishToPypi.jobs = [linuxBuild, macWindowsBuild] ∧
    linuxBuild.steps.get? 1 = some
      { name := some "Build manylinux Python wheels"
        uses := some "RalfG/python-wheels-manylinux-build@v0.3.4-manylinux2014_x86_64"
        withArgs := [("python-versions", "cp37-cp37m cp38-cp38 cp39-cp39"),
                     ("build-requirements", "torch")] } ∧
    macWindowsBuild.matrix = [("os", ["macos-latest", "windows-latest"]),
                              ("python-version", ["3.7", "3.8", "3.9"])] ∧
    linuxBuild.steps.getLast? = some twinePublishStep ∧
    macWindowsBuild.steps.getLast? = some twinePublishStep ∧
    twinePublishStep.env = [("TWINE_USERNAME", "__token__"),
      ("TWINE_PASSWORD", "$\x7b\x7b secrets.PYPI_PUBLISH_KEY \x7d\x7d")] ∧
    twinePublishStep.run = some "twine upload dist/*" := by
  decide

/-- C2: the code-quality workflow runs on pushes to every branch except
master, and its ubuntu job runs, for each of Python 3.7, 3.8 and 3.9, the
unit tests with coverage, the pytype check and the black check, followed
by the codecov upload as the final step. -/
theorem c2_code_quality_checks :
    pythonPackage.onEvents = [Trigger.push ["master"]] ∧
    pythonPackage.jobs.get? 0 = some buildPythonUbuntu ∧
    buildPythonUbuntu.matrix = [("python-version", ["3.7", "3.8", "3.9"])] ∧
    buildPythonUbuntu.steps.get? 7 = some
      { name := some "Run unit tests"
        run := some "pytest norse -n auto --cov=./ --cov-report=xml" } ∧
    buildPythonUbuntu.steps.get? 8 = some
      { name := some "Type check", run := some "pytype norse -j 4" } ∧
    buildPythonUbuntu.steps.get? 9 = some
      { name := some "Lint", run := some "black --check norse" } ∧
    (buildPythonUbuntu.steps.get? 10).map Step.uses =
      some (some "codecov/codecov-action@v1") ∧
    buildPythonUbuntu.steps.length = 11 := by
  decide

/-- C3: the recipe declares the build, host and run dependency sets, with
cmake, a C++ compiler toolchain and pytorch>=1.9.0 among the build
dependencies and python and pytorch>=1.9.0 among the run dependencies,
and its test section imports norse and torch and runs pytest. -/
theorem c3_recipe_dependencies_and_test :
    norseRecipe.outputs = [norseOutput] ∧
    norseOutput.requirements.build =
      ["cmake", "gxx_linux-64", "\x7b\x7b compiler(\x27cxx\x27) \x7d\x7d",
       "pytorch>=1.9.0"] ∧
    "cmake" ∈ norseOutput.requirements.build ∧
    "pytorch>=1.9.0" ∈ norseOutput.requirements.build ∧
    norseOutput.requirements.host ≠ [] ∧
    "python" ∈ norseOutput.requirements.runDeps ∧
    "pytorch>=1.9.0" ∈ norseOutput.requirements.runDeps ∧
    norseOutput.test.smokeImports = ["norse", "torch"] ∧
    norseOutput.test.commands = ["pytest -n 4 -vv"] ∧
    norseOutput.test.requires = ["pytest", "pytest-xdist"] := by
  decide

/-- Whether `pat` occurs as a contiguous subsequence of `s`. -/
def containsSub (pat : List Char) : List Char → Bool
  | [] => pat.isEmpty
  | c :: rest => pat.isPrefixOf (c :: rest) || containsSub pat rest

/-- A step installs python packages when its run script mentions
`pip install`. -/
def pipInstalls (st : Step) : Bool :=
  containsSub "pip install".data (st.run.getD "").data

/-- C4: the documentation workflow runs on pushes to every branch except
master; its only job installs the documentation dependencies
(docs/requirements.txt and the package itself) before the jupyter-book
build, which is the last step, so every dependency-installation step
precedes it. -/
theorem c4_docs_build_after_deps :
    documentationBuild.onEvents = [Trigger.push ["master"]] ∧
    documentationBuild.jobs = [buildDocs] ∧
    buildDocs.steps.length = 6 ∧
    buildDocs.steps.get? 4 = some
      { name := some "Install python dependencies"
        run := some "python -m pip install --upgrade pip\npip install -r docs/requirements.txt\npip install -e ." } ∧
    buildDocs.steps.get? 5 = some
      { name := some "Compile docs", run := some "jupyter-book build docs" } ∧
    (buildDocs.steps.findIdx? fun st =>
      st.run == some "jupyter-book build docs") = some 5 ∧
    (buildDocs.steps.enum.all fun pr =>
      !(pipInstalls pr.2) || decide (pr.1 < 5)) = true := by
  decide

/-- C8: in the release workflow the macOS/Windows job runs the unit tests
(step 3) before building (step 4) and uploading (step 5) its wheels, while
the only shell command of the manylinux job is the twine upload: it has no
test step. -/
theorem c8_release_test_ordering :
    linuxBuild.steps.map Step.name =
      [none, some "Build manylinux Python wheels",
       some "Publish wheels to PyPI"] ∧
    linuxBuild.steps.filterMap Step.run = ["twine upload dist/*"] ∧
    macWindowsBuild.steps.get? 3 = some
      { name := some "Run unit tests", run := some "pytest -n auto norse" } ∧
    macWindowsBuild.steps.get? 4 = some
      { name := some "Build wheel"
        run := some "python setup.py bdist_wheel sdist" } ∧
    macWindowsBuild.steps.get? 5 = some twinePublishStep ∧
    macWindowsBuild.steps.length = 6 := by
  decide

/-- C9 counterexample: the version declared in the build recipe is not
the version reported by `norse.__version__` in the executed documentation
notebook. -/
theorem c9_versions_differ_counterexample :
    ¬ norseRecipe.version = reportedNorseVersion := by
  decide

/-- C9 (amended): the build recipe declares version 0.0.7RC2 while the
executed documentation notebook reports `norse.__version__` as 0.0.7RC3;
the two versions differ. -/
theorem c9_versions_amended :
    norseRecipe.version = "0.0.7RC2" ∧
    reportedNorseVersion = "0.0.7RC3" ∧
    norseRecipe.version ≠ reportedNorseVersion := by
  decide

/-- C10: the coverage-upload step of the code-quality job sets
`fail_ci_if_error` to `true`, so a failed upload fails the CI job. -/
theorem c10_fail_ci_if_error_set :
    buildPythonUbuntu.steps.getLast? = some
      { name := some "Upload coverage"
        uses := some "codecov/codecov-action@v1"
        withArgs := [("token", "$\x7b\x7b secrets.CODECOV_TOKEN \x7d\x7d"),
                     ("flags", "unittests"),
                     ("env_vars", "OS,PYTHON"),
                     ("name", "codecov-umbrella"),
                     ("fail_ci_if_error", "true")] } ∧
    ((buildPythonUbuntu.steps.getLast?).elim false fun st =>
      st.withArgs.contains ("fail_ci_if_error", "true")) = true := by
  decide

end Norse
